import Mathlib

/-!
Verification of the civo network resource handlers.

This file is a shallow embedding of src/civo/network/resource_network.go.
Backend interactions (the civogo client calls) are modelled as explicit
function parameters returning their results; the Terraform resource state
is a record of the schema fields; diagnostics are Option String (none =
no error). Each handler definition mirrors the corresponding Go function
line by line.
-/

namespace CivoNetwork

/-- The civogo.Network struct, restricted to the fields the handlers read. -/
structure Network where
  ID : String
  Name : String
  Label : String
  Default : Bool
  CIDR : String
  NameserversV4 : List String
deriving DecidableEq, Repr

/-- The zero value civogo.Network, as in the empty struct literal that the
Read handler starts from. -/
def emptyNetwork : Network :=
  { ID := "", Name := "", Label := "", Default := false, CIDR := "", NameserversV4 := [] }

/-- Terraform resource state for the network resource: one field per schema key.
The handlers read and write these fields through d.Get / d.Set; d.Id() is the
id field. -/
structure ResourceData where
  id : String
  label : String
  region : String
  cidr_v4 : String
  nameservers_v4 : List String
  name : String
  default : Bool
  vlan_id : Int
  vlan_cidr_v4 : String
  vlan_gateway_ip_v4 : String
  vlan_physical_interface : String
  vlan_allocation_pool_v4_start : String
  vlan_allocation_pool_v4_end : String
deriving DecidableEq, Repr

/-- The civogo.Client, restricted to the one field the handlers touch. -/
structure Client where
  Region : String
deriving DecidableEq, Repr

/-- Every handler begins with: if region, ok := d.GetOk("region"); ok then
apiClient.Region = region. GetOk reports ok for a non-zero (non-empty) string. -/
def effClient (d : ResourceData) (client : Client) : Client :=
  if d.region ≠ "" then { client with Region := d.region } else client

/-- Result of apiClient.ListNetworks(): the Go call returns a slice and an
error; the Read handler distinguishes a nil slice with an error, a non-nil
slice with an error, and a successful listing. -/
inductive ListNetworksResult where
  | ok (nets : List Network)
  | errNoResp
  | errWithResp (nets : List Network)
deriving DecidableEq, Repr

/-- The scan loop of the Read handler: for _, net := range resp, keeping the
last element whose ID equals the stored id, starting from the zero Network. -/
def scanNetworks (nets : List Network) (id : String) : Network :=
  nets.foldl (fun acc net => if net.ID = id then net else acc) emptyNetwork

/-- resourceNetworkRead: list the networks, clear the id when the list call
fails with a nil response, fail on an error with a response, and otherwise
copy the scanned network into state. Returns the new state and the diagnostic. -/
def resourceNetworkRead (d : ResourceData) (client : Client)
    (listResult : ListNetworksResult) : ResourceData × Option String :=
  let cl := effClient d client
  match listResult with
  | .errNoResp => ({ d with id := "" }, none)
  | .errWithResp _ => (d, some "[ERR] failed to list the network")
  | .ok nets =>
    let CurrentNetwork := scanNetworks nets d.id
    ({ d with
        name := CurrentNetwork.Name,
        region := cl.Region,
        label := CurrentNetwork.Label,
        default := CurrentNetwork.Default,
        cidr_v4 := CurrentNetwork.CIDR,
        nameservers_v4 := CurrentNetwork.NameserversV4 }, none)

/-- The schema.ResourceDiff as seen by customizeDiffNetwork: the resource id
and the prior and planned values of cidr_v4. -/
structure ResourceDiff where
  id : String
  oldCidrV4 : String
  newCidrV4 : String
deriving DecidableEq, Repr

/-- d.HasChange("cidr_v4") on the diff: the planned value differs from the
prior value. -/
def hasChangeCidrV4 (d : ResourceDiff) : Bool :=
  d.oldCidrV4 != d.newCidrV4

/-- customizeDiffNetwork: error when the id is non-empty and cidr_v4 changed,
nil otherwise. A pure local check, no client call is available to it. -/
def customizeDiffNetwork (d : ResourceDiff) : Option String :=
  if d.id ≠ "" ∧ hasChangeCidrV4 d then some "the cidr_v4 field is immutable"
  else none

/-- The civogo.VLANConnectConfig request struct. -/
structure VLANConnectConfig where
  VlanID : Int
  PhysicalInterface : String
  CIDRv4 : String
  GatewayIPv4 : String
  AllocationPoolV4Start : String
  AllocationPoolV4End : String
deriving DecidableEq, Repr

/-- The civogo.NetworkConfig request struct; VLanConfig is a nullable pointer. -/
structure NetworkConfig where
  Label : String
  CIDRv4 : String
  Region : String
  NameserversV4 : List String
  VLanConfig : Option VLANConnectConfig
deriving DecidableEq, Repr

/-- The civogo.FirewallConfig request struct, restricted to the fields
createDefaultFirewall sets. -/
structure FirewallConfig where
  Name : String
  NetworkID : String
  Region : String
deriving DecidableEq, Repr

/-- The civogo.NetworkResult returned by CreateNetwork. -/
structure NetworkResult where
  ID : String
  Label : String
  Result : String
deriving DecidableEq, Repr

/-- The Go helper downcasts each element of a dynamically typed slice to a
string; with a typed state every element already is a string, so the
collection loop returns the input list unchanged. -/
def expandStringList (l : List String) : List String := l

/-- The vlanConfig literal built at the top of resourceNetworkCreate, one
field per vlan schema key. -/
def buildVlanConfig (d : ResourceData) : VLANConnectConfig :=
  { VlanID := d.vlan_id
    PhysicalInterface := d.vlan_physical_interface
    CIDRv4 := d.vlan_cidr_v4
    GatewayIPv4 := d.vlan_gateway_ip_v4
    AllocationPoolV4Start := d.vlan_allocation_pool_v4_start
    AllocationPoolV4End := d.vlan_allocation_pool_v4_end }

/-- The configs literal of resourceNetworkCreate: label, cidr, region and
nameservers always; the vlan configuration pointer only when VlanID > 0. -/
def buildNetworkConfig (d : ResourceData) (region : String) : NetworkConfig :=
  let base : NetworkConfig :=
    { Label := d.label
      CIDRv4 := d.cidr_v4
      Region := region
      NameserversV4 := expandStringList d.nameservers_v4
      VLanConfig := none }
  if (buildVlanConfig d).VlanID > 0 then { base with VLanConfig := some (buildVlanConfig d) }
  else base

/-- The firewallConfig literal built by createDefaultFirewall. -/
def defaultFirewallConfig (client : Client) (networkID networkName : String) : FirewallConfig :=
  { Name := networkName ++ "-default", NetworkID := networkID, Region := client.Region }

/-- createDefaultFirewall: build the default firewall config and issue
NewFirewall with it. -/
def createDefaultFirewall (newFirewall : FirewallConfig → Except String Unit)
    (client : Client) (networkID networkName : String) : Except String Unit :=
  newFirewall (defaultFirewallConfig client networkID networkName)

/-- Result of resourceNetworkCreate: the final state, the diagnostic, the
network create request that was sent, and the firewall request when one was
issued. -/
structure CreateOutcome where
  state : ResourceData
  err : Option String
  request : NetworkConfig
  firewallReq : Option FirewallConfig
deriving DecidableEq, Repr

/-- resourceNetworkCreate: build the request, call CreateNetwork, store the
returned id, create the default firewall, then delegate to the Read handler.
The CreateNetwork and NewFirewall calls are supplied as functions from the
request to the backend answer. -/
def resourceNetworkCreate (d : ResourceData) (client : Client)
    (createNetwork : NetworkConfig → Except String NetworkResult)
    (newFirewall : FirewallConfig → Except String Unit)
    (listResult : ListNetworksResult) : CreateOutcome :=
  let cl := effClient d client
  let configs := buildNetworkConfig d cl.Region
  match createNetwork configs with
  | .error e =>
    { state := d, err := some ("[ERR] failed to create network: " ++ e),
      request := configs, firewallReq := none }
  | .ok network =>
    let d1 := { d with id := network.ID }
    let fw := defaultFirewallConfig cl network.ID network.Label
    match createDefaultFirewall newFirewall cl network.ID network.Label with
    | .error e =>
      { state := d1,
        err := some ("[ERR] failed to create a new firewall for the network: " ++ e),
        request := configs, firewallReq := some fw }
    | .ok _ =>
      let r := resourceNetworkRead d1 cl listResult
      { state := r.1, err := r.2, request := configs, firewallReq := some fw }

/-- Mutating backend calls the Update handler may issue. -/
inductive APICall where
  | renameNetwork (label id : String)
  | updateNetwork (id : String) (config : NetworkConfig)
deriving DecidableEq, Repr

/-- Second half of resourceNetworkUpdate: build the nameservers config and
issue UpdateNetwork only when nameservers_v4 changed, then delegate to the
Read handler. The calls accumulator carries the rename call when one was
issued. -/
def updateNameserversPhase (dOld d : ResourceData) (cl : Client)
    (updateNetwork : String → NetworkConfig → Except String Unit)
    (listResult : ListNetworksResult) (calls : List APICall) :
    (ResourceData × Option String) × List APICall :=
  let networkConfig : NetworkConfig :=
    { Label := "", CIDRv4 := "", Region := cl.Region,
      NameserversV4 := expandStringList d.nameservers_v4, VLanConfig := none }
  if dOld.nameservers_v4 ≠ d.nameservers_v4 then
    match updateNetwork d.id networkConfig with
    | .error e =>
      ((d, some ("[ERR] An error occurred while updating the nameservers for the network "
          ++ d.id ++ ": " ++ e)),
        calls ++ [.updateNetwork d.id networkConfig])
    | .ok _ =>
      (resourceNetworkRead d cl listResult, calls ++ [.updateNetwork d.id networkConfig])
  else
    (resourceNetworkRead d cl listResult, calls)

/-- resourceNetworkUpdate: RenameNetwork only when label changed, then the
nameservers phase. dOld holds the prior values, d the planned values, so
d.HasChange(f) is the disequality of the two fields. Returns the new state,
the diagnostic, and the list of mutating calls issued. -/
def resourceNetworkUpdate (dOld d : ResourceData) (client : Client)
    (renameNetwork : String → String → Except String Unit)
    (updateNetwork : String → NetworkConfig → Except String Unit)
    (listResult : ListNetworksResult) :
    (ResourceData × Option String) × List APICall :=
  let cl := effClient d client
  if dOld.label ≠ d.label then
    match renameNetwork d.label d.id with
    | .error _ =>
      ((d, some ("[ERR] An error occurred while renaming the network " ++ d.id)),
        [.renameNetwork d.label d.id])
    | .ok _ =>
      updateNameserversPhase dOld d cl updateNetwork listResult [.renameNetwork d.label d.id]
  else
    updateNameserversPhase dOld d cl updateNetwork listResult []

/-- The civogo.SimpleResponse returned by DeleteNetwork, restricted to the
Result field the poller inspects. -/
structure SimpleResponse where
  Result : String
deriving DecidableEq, Repr

/-- Result of one apiClient.DeleteNetwork call. -/
inductive DeleteResult where
  | ok (resp : SimpleResponse)
  | err (e : String)
deriving DecidableEq, Repr

/-- Result of one apiClient.GetNetwork call: the network, the distinguished
civogo.DatabaseNetworkNotFoundError, or any other error. -/
inductive GetNetworkResult where
  | found (net : Network)
  | notFoundErr
  | otherErr (e : String)
deriving DecidableEq, Repr

/-- The dynamically typed first component of the refresh triple: the literal
0 returned on a delete error, the delete response, or nil. -/
inductive RefreshValue where
  | intZero
  | respV (r : SimpleResponse)
  | nilV
deriving DecidableEq, Repr

/-- One backend interaction of the delete poller. -/
inductive BackendCall where
  | deleteNetwork (id : String)
  | getNetwork (id : String)
deriving DecidableEq, Repr

/-- Recognizer for delete calls in a backend trace. -/
def isDeleteCall : BackendCall → Bool
  | .deleteNetwork _ => true
  | .getNetwork _ => false

/-- Whether a DeleteNetwork answer is a response reporting success. -/
def deleteSucceeded : DeleteResult → Bool
  | .ok resp => resp.Result == "success"
  | .err _ => false

/-- The backend calls poll i issues, as a function of the delete answer of
that poll: always the delete request first, followed by the existence query
exactly when that delete reported success. -/
def pollCalls (networkID : String) (del : Nat → DeleteResult) (i : Nat) : List BackendCall :=
  if deleteSucceeded (del i) then [.deleteNetwork networkID, .getNetwork networkID]
  else [.deleteNetwork networkID]

/-- The Refresh closure of the delete StateChangeConf, given the answers of
the DeleteNetwork and GetNetwork calls of this invocation. Returns the
(value, state, error) triple together with the backend calls it issued:
every invocation first calls DeleteNetwork, and only a successful delete is
followed by the GetNetwork existence check. -/
def networkDeleteRefresh (networkID : String) (del : DeleteResult)
    (get : GetNetworkResult) :
    (RefreshValue × String × Option String) × List BackendCall :=
  match del with
  | .err e => ((.intZero, "", some e), [.deleteNetwork networkID])
  | .ok resp =>
    if resp.Result = "success" then
      match get with
      | .notFoundErr =>
        ((.respV resp, "deleted", none), [.deleteNetwork networkID, .getNetwork networkID])
      | .otherErr e =>
        ((.nilV, "", some e), [.deleteNetwork networkID, .getNetwork networkID])
      | .found _ =>
        ((.respV resp, "deleting", none), [.deleteNetwork networkID, .getNetwork networkID])
    else
      ((.respV resp, "exists", none), [.deleteNetwork networkID])

/-- Pending states of the delete StateChangeConf. -/
def pendingStates : List String := ["deleting", "exists"]

/-- Target states of the delete StateChangeConf. -/
def targetStates : List String := ["deleted"]

/-- Outcome of WaitForStateContext. -/
inductive WaitResult where
  | success (v : RefreshValue)
  | refreshError (e : String)
  | timeout
deriving DecidableEq, Repr

/-- The WaitForStateContext loop of the SDK on the delete StateChangeConf:
call Refresh; abort on a refresh error; stop with success on a target state;
retry (after the backoff delay) on a pending state. The wall-clock timeout
is modelled as fuel, the number of refresh invocations the timeout window
admits; the i-th invocation sees the i-th backend answers. Returns the
outcome, the number of refresh invocations performed, and the backend call
trace. -/
def runDeletePoller (networkID : String) (del : Nat → DeleteResult)
    (get : Nat → GetNetworkResult) : Nat → WaitResult × Nat × List BackendCall
  | 0 => (.timeout, 0, [])
  | fuel + 1 =>
    match networkDeleteRefresh networkID (del 0) (get 0) with
    | ((_, _, some e), calls) => (.refreshError e, 1, calls)
    | ((v, s, none), calls) =>
      if s ∈ targetStates then (.success v, 1, calls)
      else if s ∈ pendingStates then
        let rest := runDeletePoller networkID (fun i => del (i + 1)) (fun i => get (i + 1)) fuel
        (rest.1, rest.2.1 + 1, calls ++ rest.2.2)
      else (.refreshError ("unexpected state " ++ s), 1, calls)

/-- resourceNetworkDelete: run the delete StateChangeConf and translate its
outcome into the returned diagnostic. -/
def resourceNetworkDelete (d : ResourceData) (client : Client)
    (del : Nat → DeleteResult) (get : Nat → GetNetworkResult) (fuel : Nat) :
    Option String :=
  let _cl := effClient d client
  match (runDeletePoller d.id del get fuel).1 with
  | .success _ => none
  | .refreshError e =>
    some ("error waiting for network (" ++ d.id ++ ") to be deleted: " ++ e)
  | .timeout =>
    some ("error waiting for network (" ++ d.id
      ++ ") to be deleted: timeout while waiting for state to become deleted")

/-! Concrete fixtures used to evaluate the handlers on explicit inputs. -/

/-- A concrete resource state holding a network identifier. -/
def sampleState : ResourceData :=
  { id := "net-1", label := "my-net", region := "LON1", cidr_v4 := "192.168.1.0/24",
    nameservers_v4 := ["8.8.8.8"], name := "cust-my-net", default := false,
    vlan_id := 0, vlan_cidr_v4 := "", vlan_gateway_ip_v4 := "",
    vlan_physical_interface := "", vlan_allocation_pool_v4_start := "",
    vlan_allocation_pool_v4_end := "" }

/-- The same configuration before any create: the identifier is empty. -/
def newState : ResourceData := { sampleState with id := "" }

/-- A concrete client. -/
def sampleClient : Client := { Region := "LON1" }

/-- A concrete backend network matching sampleState. -/
def sampleNetwork : Network :=
  { ID := "net-1", Name := "cust-my-net", Label := "my-net", Default := false,
    CIDR := "192.168.1.0/24", NameserversV4 := ["8.8.8.8"] }

/-- A concrete CreateNetwork result for sampleNetwork. -/
def sampleResult : NetworkResult :=
  { ID := "net-1", Label := "my-net", Result := "success" }

/-- A delete sequence whose every call succeeds. -/
def alwaysDeleteOk : Nat → DeleteResult := fun _ => .ok { Result := "success" }

/-- An existence sequence reporting the network present on the first poll and
gone from the second poll on. -/
def foundThenGone : Nat → GetNetworkResult :=
  fun i => if i = 0 then .found emptyNetwork else .notFoundErr

/-- An existence sequence that always reports the network present. -/
def alwaysFound : Nat → GetNetworkResult := fun _ => .found emptyNetwork

/-! Helper lemmas about the delete poller, shared by several claims. -/

lemma poller_step_deleted (networkID : String) (del : Nat → DeleteResult)
    (get : Nat → GetNetworkResult) (fuel : Nat) (resp : SimpleResponse)
    (h1 : del 0 = .ok resp) (hr : resp.Result = "success")
    (h2 : get 0 = .notFoundErr) :
    runDeletePoller networkID del get (fuel + 1) =
      (.success (.respV resp), 1, [.deleteNetwork networkID, .getNetwork networkID]) := by
  simp [runDeletePoller, networkDeleteRefresh, h1, h2, hr, targetStates]

lemma poller_step_deleting (networkID : String) (del : Nat → DeleteResult)
    (get : Nat → GetNetworkResult) (fuel : Nat) (resp : SimpleResponse)
    (net : Network) (h1 : del 0 = .ok resp) (hr : resp.Result = "success")
    (h2 : get 0 = .found net) :
    runDeletePoller networkID del get (fuel + 1) =
      ((runDeletePoller networkID (fun i => del (i + 1)) (fun i => get (i + 1)) fuel).1,
       (runDeletePoller networkID (fun i => del (i + 1)) (fun i => get (i + 1)) fuel).2.1 + 1,
       [.deleteNetwork networkID, .getNetwork networkID] ++
         (runDeletePoller networkID (fun i => del (i + 1)) (fun i => get (i + 1)) fuel).2.2) := by
  simp [runDeletePoller, networkDeleteRefresh, h1, h2, hr, targetStates, pendingStates]

lemma poller_step_getError (networkID : String) (del : Nat → DeleteResult)
    (get : Nat → GetNetworkResult) (fuel : Nat) (resp : SimpleResponse) (e : String)
    (h1 : del 0 = .ok resp) (hr : resp.Result = "success")
    (h2 : get 0 = .otherErr e) :
    runDeletePoller networkID del get (fuel + 1) =
      (.refreshError e, 1, [.deleteNetwork networkID, .getNetwork networkID]) := by
  simp [runDeletePoller, networkDeleteRefresh, h1, h2, hr]

lemma poller_step_deleteError (networkID : String) (del : Nat → DeleteResult)
    (get : Nat → GetNetworkResult) (fuel : Nat) (e : String)
    (h1 : del 0 = .err e) :
    runDeletePoller networkID del get (fuel + 1) =
      (.refreshError e, 1, [.deleteNetwork networkID]) := by
  simp [runDeletePoller, networkDeleteRefresh, h1]

/-- Every refresh invocation issues exactly one DeleteNetwork call. -/
lemma refresh_one_delete (networkID : String) (del : DeleteResult)
    (get : GetNetworkResult) :
    ((networkDeleteRefresh networkID del get).2.countP isDeleteCall) = 1 := by
  cases del with
  | err e => rfl
  | ok resp =>
    by_cases hr : resp.Result = "success"
    · cases get <;> simp [networkDeleteRefresh, hr, isDeleteCall]
    · simp [networkDeleteRefresh, hr, isDeleteCall]

/-- The calls of one refresh invocation, shaped by its delete answer: the
delete request always comes first, and the existence query follows it
exactly when the delete reported success, whatever the existence answer. -/
lemma refresh_calls_shape (networkID : String) (del : DeleteResult)
    (get : GetNetworkResult) :
    (networkDeleteRefresh networkID del get).2 =
      if deleteSucceeded del then [.deleteNetwork networkID, .getNetwork networkID]
      else [.deleteNetwork networkID] := by
  cases del with
  | err e => rfl
  | ok resp =>
    by_cases hr : resp.Result = "success"
    · cases get <;> simp [networkDeleteRefresh, deleteSucceeded, hr]
    · simp [networkDeleteRefresh, deleteSucceeded, hr]

/-- Shifting the delete sequence commutes with pollCalls. -/
lemma pollCalls_shift (networkID : String) (del : Nat → DeleteResult) :
    pollCalls networkID (fun i => del (i + 1)) = fun i => pollCalls networkID del (i + 1) :=
  rfl

/-- The backend trace of a wait run is, poll by poll, the delete request
followed by the existence query exactly when that delete reported success. -/
lemma poller_trace_eq (networkID : String) (del : Nat → DeleteResult)
    (get : Nat → GetNetworkResult) (fuel : Nat) :
    (runDeletePoller networkID del get fuel).2.2 =
      ((List.range (runDeletePoller networkID del get fuel).2.1).map
        (pollCalls networkID del)).flatten := by
  induction fuel generalizing del get with
  | zero => rfl
  | succ f ih =>
    rcases hstep : networkDeleteRefresh networkID (del 0) (get 0) with ⟨⟨v, s, err⟩, calls⟩
    have hshape := refresh_calls_shape networkID (del 0) (get 0)
    rw [hstep] at hshape
    cases err with
    | some e =>
      simp [runDeletePoller, hstep, List.range_succ, pollCalls, hshape]
    | none =>
      by_cases ht : s ∈ targetStates
      · simp [runDeletePoller, hstep, ht, List.range_succ, pollCalls, hshape]
      · by_cases hp : s ∈ pendingStates
        · simp only [runDeletePoller, hstep, ht, hp, if_true, if_false, ite_true, ite_false]
          have hshape2 : calls =
              if deleteSucceeded (del 0) = true then
                [BackendCall.deleteNetwork networkID, BackendCall.getNetwork networkID]
              else [BackendCall.deleteNetwork networkID] := hshape
          rw [ih (fun i => del (i + 1)) (fun i => get (i + 1)), pollCalls_shift networkID del,
            List.range_succ_eq_map, List.map_cons, List.map_map, List.flatten_cons, hshape2]
          simp [pollCalls, Function.comp_def, Nat.succ_eq_add_one]
        · simp [runDeletePoller, hstep, ht, hp, List.range_succ, pollCalls, hshape]

/-! Helper lemmas about the scan loop of the Read handler. -/

lemma scan_foldl_keep (id : String) (net : Network) (l : List Network)
    (h : ∀ x ∈ l, x.ID = id → x = net) :
    l.foldl (fun acc n => if n.ID = id then n else acc) net = net := by
  induction l with
  | nil => rfl
  | cons x xs ih =>
    simp only [List.foldl_cons]
    by_cases hx : x.ID = id
    · rw [if_pos hx, h x (List.mem_cons_self x xs) hx]
      exact ih fun y hy hyid => h y (List.mem_cons_of_mem x hy) hyid
    · rw [if_neg hx]
      exact ih fun y hy hyid => h y (List.mem_cons_of_mem x hy) hyid

lemma scan_foldl_find (id : String) (net : Network) (l : List Network)
    (acc : Network) (hmem : net ∈ l) (hid : net.ID = id)
    (huniq : ∀ x ∈ l, x.ID = id → x = net) :
    l.foldl (fun acc n => if n.ID = id then n else acc) acc = net := by
  induction l generalizing acc with
  | nil => cases hmem
  | cons x xs ih =>
    simp only [List.foldl_cons]
    by_cases hxs : net ∈ xs
    · exact ih _ hxs fun y hy hyid => huniq y (List.mem_cons_of_mem x hy) hyid
    · have hx : x = net := by
        rcases List.mem_cons.mp hmem with h | h
        · exact h.symm
        · exact absurd h hxs
      subst hx
      rw [if_pos hid]
      exact scan_foldl_keep id x xs fun y hy hyid =>
        huniq y (List.mem_cons_of_mem x hy) hyid

/-- The scan loop returns the unique network carrying the identifier. -/
lemma scanNetworks_eq (nets : List Network) (net : Network) (hmem : net ∈ nets)
    (huniq : ∀ m ∈ nets, m.ID = net.ID → m = net) :
    scanNetworks nets net.ID = net :=
  scan_foldl_find net.ID net nets emptyNetwork hmem rfl huniq

/-! Helper lemmas about the create, read and update handlers. -/

/-- Applying the region overwrite a second time, from a state carrying the
same region value, does not change the client. -/
lemma effClient_idem (d d1 : ResourceData) (client : Client)
    (h : d1.region = d.region) : effClient d1 (effClient d client) = effClient d client := by
  unfold effClient
  by_cases hr : d.region = ""
  · simp [hr, h]
  · simp [hr, h]

/-- The create request sent to the backend is the built config, on every
path through the Create handler. -/
lemma create_request_eq (d : ResourceData) (client : Client)
    (createNetwork : NetworkConfig → Except String NetworkResult)
    (newFirewall : FirewallConfig → Except String Unit)
    (listResult : ListNetworksResult) :
    (resourceNetworkCreate d client createNetwork newFirewall listResult).request =
      buildNetworkConfig d (effClient d client).Region := by
  unfold resourceNetworkCreate
  cases h : createNetwork (buildNetworkConfig d (effClient d client).Region) with
  | error e => simp [h]
  | ok network =>
    cases h2 : createDefaultFirewall newFirewall (effClient d client) network.ID network.Label with
    | error e2 => simp [h, h2]
    | ok u => simp [h, h2]

/-- The mutating calls issued by the nameservers phase of the Update handler. -/
lemma updateNameserversPhase_calls (dOld d : ResourceData) (cl : Client)
    (updateNetwork : String → NetworkConfig → Except String Unit)
    (listResult : ListNetworksResult) (calls : List APICall) :
    (updateNameserversPhase dOld d cl updateNetwork listResult calls).2 =
      if dOld.nameservers_v4 ≠ d.nameservers_v4 then
        calls ++ [.updateNetwork d.id
          { Label := "", CIDRv4 := "", Region := cl.Region,
            NameserversV4 := expandStringList d.nameservers_v4, VLanConfig := none }]
      else calls := by
  by_cases h : dOld.nameservers_v4 = d.nameservers_v4
  · simp [updateNameserversPhase, h]
  · have h2 : dOld.nameservers_v4 ≠ d.nameservers_v4 := h
    simp only [updateNameserversPhase, if_pos h2]
    cases hu : updateNetwork d.id
        { Label := "", CIDRv4 := "", Region := cl.Region,
          NameserversV4 := expandStringList d.nameservers_v4, VLanConfig := none } with
    | error e => simp [hu]
    | ok u => simp [hu]

/-! Claim theorems. -/

/-- C1: in the refresh step of the delete poller, after the delete request
returns success, an existence check answering with the distinguished
not-found error yields the terminal state "deleted" with no error and the
wait loop stops with success on that poll; any other existence-check error
is returned from the refresh step and aborts the whole wait with a failure;
a still-found network yields the non-terminal pending state "deleting",
after which the loop retries (one more poll is consumed and the wait
continues on the remaining budget). -/
theorem deleteRefresh_transitions (networkID : String) (del : Nat → DeleteResult)
    (get : Nat → GetNetworkResult) (fuel : Nat) (resp : SimpleResponse)
    (hdel : del 0 = .ok resp) (hresp : resp.Result = "success") :
    (get 0 = .notFoundErr →
      (networkDeleteRefresh networkID (del 0) (get 0)).1 = (.respV resp, "deleted", none) ∧
      (runDeletePoller networkID del get (fuel + 1)).1 = .success (.respV resp) ∧
      (runDeletePoller networkID del get (fuel + 1)).2.1 = 1) ∧
    (∀ e, get 0 = .otherErr e →
      (networkDeleteRefresh networkID (del 0) (get 0)).1 = (.nilV, "", some e) ∧
      (runDeletePoller networkID del get (fuel + 1)).1 = .refreshError e) ∧
    (∀ net, get 0 = .found net →
      (networkDeleteRefresh networkID (del 0) (get 0)).1 = (.respV resp, "deleting", none) ∧
      "deleting" ∈ pendingStates ∧ "deleting" ∉ targetStates ∧
      (runDeletePoller networkID del get (fuel + 1)).1 =
        (runDeletePoller networkID (fun i => del (i + 1)) (fun i => get (i + 1)) fuel).1 ∧
      (runDeletePoller networkID del get (fuel + 1)).2.1 =
        (runDeletePoller networkID (fun i => del (i + 1)) (fun i => get (i + 1)) fuel).2.1 + 1) := by
  refine ⟨?_, ?_, ?_⟩
  · intro h2
    refine ⟨by simp [networkDeleteRefresh, hdel, hresp, h2], ?_, ?_⟩
    · rw [poller_step_deleted networkID del get fuel resp hdel hresp h2]
    · rw [poller_step_deleted networkID del get fuel resp hdel hresp h2]
  · intro e h2
    exact ⟨by simp [networkDeleteRefresh, hdel, hresp, h2],
      by rw [poller_step_getError networkID del get fuel resp e hdel hresp h2]⟩
  · intro net h2
    refine ⟨by simp [networkDeleteRefresh, hdel, hresp, h2], by decide, by decide, ?_, ?_⟩
    · rw [poller_step_deleting networkID del get fuel resp net hdel hresp h2]
    · rw [poller_step_deleting networkID del get fuel resp net hdel hresp h2]

/-- Witness for C1: with a succeeding delete and an immediately missing
network, one poll suffices and the wait reports success. -/
theorem deleteRefresh_transitions_witness :
    (runDeletePoller "net-1" alwaysDeleteOk (fun _ => GetNetworkResult.notFoundErr) 1).1 =
      WaitResult.success (RefreshValue.respV { Result := "success" }) :=
  ((deleteRefresh_transitions "net-1" alwaysDeleteOk (fun _ => GetNetworkResult.notFoundErr)
      0 { Result := "success" } rfl rfl).1 rfl).2.1

/-- C4: when every delete call succeeds and the existence check first
reports the network gone on the Nth poll, the wait stops with success after
exactly N refresh invocations, and a budget of fewer than N invocations
never reports success (it times out). -/
theorem delete_success_exactly_N (networkID : String) (del : Nat → DeleteResult)
    (get : Nat → GetNetworkResult) (N fuel : Nat) (hN : 1 ≤ N) (hfuel : N ≤ fuel)
    (hdel : ∀ i, i < N → del i = .ok { Result := "success" })
    (hfound : ∀ i, i + 1 < N → ∃ net, get i = .found net)
    (hnf : get (N - 1) = .notFoundErr) :
    ((runDeletePoller networkID del get fuel).1 =
        .success (.respV { Result := "success" }) ∧
      (runDeletePoller networkID del get fuel).2.1 = N) ∧
    (∀ M, M < N → (runDeletePoller networkID del get M).1 = .timeout) := by
  induction N generalizing del get fuel with
  | zero => exact absurd hN (by omega)
  | succ n ih =>
    have h0 : del 0 = .ok { Result := "success" } := hdel 0 (by omega)
    obtain ⟨f, rfl⟩ : ∃ f, fuel = f + 1 := ⟨fuel - 1, by omega⟩
    cases n with
    | zero =>
      have hg : get 0 = .notFoundErr := hnf
      constructor
      · rw [poller_step_deleted networkID del get f { Result := "success" } h0 rfl hg]
        exact ⟨rfl, rfl⟩
      · intro M hM
        have hM0 : M = 0 := by omega
        subst hM0
        rfl
    | succ m =>
      obtain ⟨net0, hg0⟩ := hfound 0 (by omega)
      have hrec := ih (fun i => del (i + 1)) (fun i => get (i + 1)) f (by omega) (by omega)
        (fun i hi => hdel (i + 1) (by omega))
        (fun i hi => hfound (i + 1) (by omega))
        hnf
      constructor
      · rw [poller_step_deleting networkID del get f { Result := "success" } net0 h0 rfl hg0]
        exact ⟨hrec.1.1, by rw [hrec.1.2]⟩
      · intro M hM
        cases M with
        | zero => rfl
        | succ k =>
          rw [poller_step_deleting networkID del get k { Result := "success" } net0 h0 rfl hg0]
          exact hrec.2 k (by omega)

/-- Witness for C4: the network is still present on the first poll and gone
on the second, so the wait succeeds after exactly two polls out of a budget
of five. -/
theorem delete_success_exactly_N_witness :
    (runDeletePoller "net-1" alwaysDeleteOk foundThenGone 5).1 =
      WaitResult.success (RefreshValue.respV { Result := "success" }) ∧
    (runDeletePoller "net-1" alwaysDeleteOk foundThenGone 5).2.1 = 2 :=
  (delete_success_exactly_N "net-1" alwaysDeleteOk foundThenGone 2 5 (by omega) (by omega)
    (fun i _ => rfl)
    (fun i hi => ⟨emptyNetwork, by
      have hi0 : i = 0 := by omega
      subst hi0
      rfl⟩)
    rfl).1

/-- Helper for C5: when every poll finds the network still present, the
wait exhausts its budget and times out. -/
lemma poller_all_found_timeout (networkID : String) (del : Nat → DeleteResult)
    (get : Nat → GetNetworkResult) (fuel : Nat)
    (hdel : ∀ i, i < fuel → del i = .ok { Result := "success" })
    (hfound : ∀ i, i < fuel → ∃ net, get i = .found net) :
    (runDeletePoller networkID del get fuel).1 = .timeout := by
  induction fuel generalizing del get with
  | zero => rfl
  | succ f ih =>
    obtain ⟨net0, hg0⟩ := hfound 0 (by omega)
    rw [poller_step_deleting networkID del get f { Result := "success" } net0
      (hdel 0 (by omega)) rfl hg0]
    exact ih (fun i => del (i + 1)) (fun i => get (i + 1))
      (fun i hi => hdel (i + 1) (by omega)) (fun i hi => hfound (i + 1) (by omega))

/-- C5: if the existence check never reports the network gone within the
poll budget of the timeout window, the wait times out, never reports
success, and the Delete handler returns the timeout diagnostic. -/
theorem delete_never_notfound_times_out (d : ResourceData) (client : Client)
    (del : Nat → DeleteResult) (get : Nat → GetNetworkResult) (fuel : Nat)
    (hdel : ∀ i, i < fuel → del i = .ok { Result := "success" })
    (hfound : ∀ i, i < fuel → ∃ net, get i = .found net) :
    (runDeletePoller d.id del get fuel).1 = .timeout ∧
    (∀ v, (runDeletePoller d.id del get fuel).1 ≠ .success v) ∧
    resourceNetworkDelete d client del get fuel =
      some ("error waiting for network (" ++ d.id
        ++ ") to be deleted: timeout while waiting for state to become deleted") := by
  have ht := poller_all_found_timeout d.id del get fuel hdel hfound
  refine ⟨ht, ?_, ?_⟩
  · intro v h
    rw [ht] at h
    exact WaitResult.noConfusion h
  · simp [resourceNetworkDelete, ht]

/-- Witness for C5: two polls, the network present on both, so the delete
operation reports the timeout diagnostic. -/
theorem delete_never_notfound_times_out_witness :
    resourceNetworkDelete sampleState sampleClient alwaysDeleteOk alwaysFound 2 =
      some ("error waiting for network (" ++ sampleState.id
        ++ ") to be deleted: timeout while waiting for state to become deleted") :=
  (delete_never_notfound_times_out sampleState sampleClient alwaysDeleteOk alwaysFound 2
    (fun _ _ => rfl) (fun _ _ => ⟨emptyNetwork, rfl⟩)).2.2

/-- C6 counterexample: in a delete operation that needs two polls (network
still present on the first existence check, gone on the second), the
backend trace contains two DeleteNetwork calls, not one: the refresh step
re-issues the delete request at the start of every poll. -/
theorem delete_issued_twice :
    (runDeletePoller "net-1" alwaysDeleteOk foundThenGone 5).2.2 =
      [.deleteNetwork "net-1", .getNetwork "net-1",
       .deleteNetwork "net-1", .getNetwork "net-1"] ∧
    ((runDeletePoller "net-1" alwaysDeleteOk foundThenGone 5).2.2.countP isDeleteCall = 2) ∧
    (runDeletePoller "net-1" alwaysDeleteOk foundThenGone 5).1 =
      WaitResult.success (RefreshValue.respV { Result := "success" }) :=
  ⟨rfl, rfl, rfl⟩

/-- C6 amended: every refresh invocation of the delete poller begins by
issuing the delete request, so a run comprising N polls issues exactly N
DeleteNetwork calls (first conjunct), and the backend trace of the run is
exactly, poll by poll, that delete request followed by an existence query
when and only when the delete of the same poll reported success (second
conjunct, through pollCalls). -/
theorem delete_calls_eq_polls (networkID : String) (del : Nat → DeleteResult)
    (get : Nat → GetNetworkResult) (fuel : Nat) :
    (((runDeletePoller networkID del get fuel).2.2.countP isDeleteCall) =
      (runDeletePoller networkID del get fuel).2.1) ∧
    ((runDeletePoller networkID del get fuel).2.2 =
      ((List.range (runDeletePoller networkID del get fuel).2.1).map
        (pollCalls networkID del)).flatten) := by
  refine ⟨?_, poller_trace_eq networkID del get fuel⟩
  induction fuel generalizing del get with
  | zero => rfl
  | succ f ih =>
    have hone := refresh_one_delete networkID (del 0) (get 0)
    rcases hstep : networkDeleteRefresh networkID (del 0) (get 0) with ⟨⟨v, s, err⟩, calls⟩
    rw [hstep] at hone
    cases err with
    | some e => simp [runDeletePoller, hstep, hone]
    | none =>
      by_cases ht : s ∈ targetStates
      · simp [runDeletePoller, hstep, ht, hone]
      · by_cases hp : s ∈ pendingStates
        · simp only [runDeletePoller, hstep, ht, hp, if_true, if_false, ite_true, ite_false]
          rw [List.countP_append, hone, ih (fun i => del (i + 1)) (fun i => get (i + 1))]
          omega
        · simp [runDeletePoller, hstep, ht, hp, hone]

/-- C2 evaluation at the failing input: the stored identifier is "net-1",
the backend list succeeds and contains no such network, yet the Read
handler leaves the identifier in place and returns no error; the identifier
is cleared only on the branch where the list call itself fails with a nil
response. -/
theorem read_missing_network_keeps_id :
    (resourceNetworkRead sampleState sampleClient (.ok [])).1.id = "net-1" ∧
    (resourceNetworkRead sampleState sampleClient (.ok [])).2 = none ∧
    (resourceNetworkRead sampleState sampleClient .errNoResp).1.id = "" ∧
    (resourceNetworkRead sampleState sampleClient .errNoResp).2 = none :=
  ⟨rfl, rfl, rfl, rfl⟩

/-- C3: the diff customization hook fails exactly when the resource already
exists (non-empty identifier) and the immutable field cidr_v4 changed from
its prior value; a plan changing cidr_v4 on a new resource (empty
identifier) passes. The hook is a pure function of the diff record: no
client is available to it, so it can issue no API call or side effect. -/
theorem customizeDiffNetwork_error_iff (d : ResourceDiff) :
    ((customizeDiffNetwork d).isSome ↔ d.id ≠ "" ∧ d.oldCidrV4 ≠ d.newCidrV4) ∧
    (d.id = "" → customizeDiffNetwork d = none) := by
  refine ⟨?_, fun h => by simp [customizeDiffNetwork, h]⟩
  unfold customizeDiffNetwork hasChangeCidrV4
  split <;> simp_all [bne_iff_ne]

/-- Witness for C3: a plan changing cidr_v4 on a new resource passes the
validation. -/
theorem customizeDiffNetwork_error_iff_witness :
    customizeDiffNetwork
      { id := "", oldCidrV4 := "192.168.1.0/24", newCidrV4 := "10.0.0.0/24" } = none :=
  (customizeDiffNetwork_error_iff
    { id := "", oldCidrV4 := "192.168.1.0/24", newCidrV4 := "10.0.0.0/24" }).2 rfl

/-- C9: the create request carries the VLAN configuration exactly when the
configured vlan_id is greater than 0; when it is 0 (the unset zero value)
or negative, the VLanConfig pointer is nil and every VLAN field is absent
from the request; the attached configuration copies all six VLAN schema
fields verbatim. -/
theorem create_vlan_config_iff (d : ResourceData) (client : Client)
    (createNetwork : NetworkConfig → Except String NetworkResult)
    (newFirewall : FirewallConfig → Except String Unit)
    (listResult : ListNetworksResult) :
    ((resourceNetworkCreate d client createNetwork newFirewall listResult).request.VLanConfig
        = some (buildVlanConfig d) ↔ 0 < d.vlan_id) ∧
    (d.vlan_id ≤ 0 →
      (resourceNetworkCreate d client createNetwork newFirewall
        listResult).request.VLanConfig = none) ∧
    (buildVlanConfig d).VlanID = d.vlan_id ∧
    (buildVlanConfig d).PhysicalInterface = d.vlan_physical_interface ∧
    (buildVlanConfig d).CIDRv4 = d.vlan_cidr_v4 ∧
    (buildVlanConfig d).GatewayIPv4 = d.vlan_gateway_ip_v4 ∧
    (buildVlanConfig d).AllocationPoolV4Start = d.vlan_allocation_pool_v4_start ∧
    (buildVlanConfig d).AllocationPoolV4End = d.vlan_allocation_pool_v4_end := by
  have hreq := create_request_eq d client createNetwork newFirewall listResult
  refine ⟨?_, ?_, rfl, rfl, rfl, rfl, rfl, rfl⟩
  · rw [hreq]
    unfold buildNetworkConfig
    by_cases h : 0 < d.vlan_id
    · rw [if_pos (show (buildVlanConfig d).VlanID > 0 from h)]
      simp [h]
    · rw [if_neg (show ¬ (buildVlanConfig d).VlanID > 0 from h)]
      simp [h]
  · intro hle
    rw [hreq]
    unfold buildNetworkConfig
    rw [if_neg (show ¬ (buildVlanConfig d).VlanID > 0 from by
      show ¬ 0 < d.vlan_id
      omega)]

/-- Witness for C9: with vlan_id left at 0, the request omits the VLAN
configuration. -/
theorem create_vlan_config_iff_witness :
    (resourceNetworkCreate newState sampleClient
        (fun _ => Except.ok sampleResult) (fun _ => Except.ok ())
        (ListNetworksResult.ok [])).request.VLanConfig = none :=
  (create_vlan_config_iff newState sampleClient
    (fun _ => Except.ok sampleResult) (fun _ => Except.ok ())
    (ListNetworksResult.ok [])).2.1 (by decide)

/-- C10: when neither label nor nameservers_v4 changed, the Update handler
issues no mutating call; a RenameNetwork call appears in the issued calls
only when label changed, and an UpdateNetwork call only when nameservers_v4
changed. -/
theorem update_mutating_calls (dOld d : ResourceData) (client : Client)
    (renameNetwork : String → String → Except String Unit)
    (updateNetwork : String → NetworkConfig → Except String Unit)
    (listResult : ListNetworksResult) :
    (dOld.label = d.label ∧ dOld.nameservers_v4 = d.nameservers_v4 →
      (resourceNetworkUpdate dOld d client renameNetwork updateNetwork listResult).2 = []) ∧
    (∀ l i, APICall.renameNetwork l i ∈
        (resourceNetworkUpdate dOld d client renameNetwork updateNetwork listResult).2 →
      dOld.label ≠ d.label) ∧
    (∀ i cfg, APICall.updateNetwork i cfg ∈
        (resourceNetworkUpdate dOld d client renameNetwork updateNetwork listResult).2 →
      dOld.nameservers_v4 ≠ d.nameservers_v4) := by
  by_cases hl : dOld.label = d.label
  · have hcalls : (resourceNetworkUpdate dOld d client renameNetwork updateNetwork listResult).2 =
        (updateNameserversPhase dOld d (effClient d client) updateNetwork listResult []).2 := by
      simp [resourceNetworkUpdate, hl]
    rw [updateNameserversPhase_calls] at hcalls
    by_cases hn : dOld.nameservers_v4 = d.nameservers_v4
    · rw [if_neg (by simp [hn])] at hcalls
      refine ⟨fun _ => hcalls, ?_, ?_⟩
      · intro l i hmem
        rw [hcalls] at hmem
        simp at hmem
      · intro i cfg hmem
        rw [hcalls] at hmem
        simp at hmem
    · rw [if_pos hn] at hcalls
      refine ⟨fun hb => absurd hb.2 hn, ?_, fun i cfg _ => hn⟩
      intro l i hmem
      rw [hcalls] at hmem
      simp at hmem
  · have hl2 : dOld.label ≠ d.label := hl
    cases hr : renameNetwork d.label d.id with
    | error e =>
      have hcalls : (resourceNetworkUpdate dOld d client renameNetwork updateNetwork listResult).2 =
          [APICall.renameNetwork d.label d.id] := by
        simp [resourceNetworkUpdate, hl2, hr]
      refine ⟨fun hb => absurd hb.1 hl2, fun l i _ => hl2, ?_⟩
      intro i cfg hmem
      rw [hcalls] at hmem
      simp at hmem
    | ok u =>
      have hcalls : (resourceNetworkUpdate dOld d client renameNetwork updateNetwork listResult).2 =
          (updateNameserversPhase dOld d (effClient d client) updateNetwork listResult
            [APICall.renameNetwork d.label d.id]).2 := by
        simp [resourceNetworkUpdate, hl2, hr]
      rw [updateNameserversPhase_calls] at hcalls
      by_cases hn : dOld.nameservers_v4 = d.nameservers_v4
      · rw [if_neg (by simp [hn])] at hcalls
        refine ⟨fun hb => absurd hb.1 hl2, fun l i _ => hl2, ?_⟩
        intro i cfg hmem
        rw [hcalls] at hmem
        simp at hmem
      · rw [if_pos hn] at hcalls
        exact ⟨fun hb => absurd hb.1 hl2, fun l i _ => hl2, fun i cfg _ => hn⟩

/-- Witness for C10: an update in which nothing changed issues no mutating
call. -/
theorem update_mutating_calls_witness :
    (resourceNetworkUpdate sampleState sampleState sampleClient
      (fun _ _ => Except.ok ()) (fun _ _ => Except.ok ())
      (ListNetworksResult.ok [])).2 = [] :=
  (update_mutating_calls sampleState sampleState sampleClient
    (fun _ _ => Except.ok ()) (fun _ _ => Except.ok ())
    (ListNetworksResult.ok [])).1 ⟨rfl, rfl⟩

/-- C7: creating a network and reading it back stores every field of the
network object the backend lists under the stored identifier without
transformation: name, label, default, cidr_v4 and nameservers_v4 are the
backend values verbatim, and region is the effective client region the
backend interaction was scoped to; the stored identifier is the created id
and no error is reported. -/
theorem create_then_read_round_trip (d : ResourceData) (client : Client)
    (createNetwork : NetworkConfig → Except String NetworkResult)
    (newFirewall : FirewallConfig → Except String Unit)
    (nets : List Network) (res : NetworkResult) (net : Network)
    (hcreate : createNetwork (buildNetworkConfig d (effClient d client).Region) = .ok res)
    (hfw : newFirewall (defaultFirewallConfig (effClient d client) res.ID res.Label) = .ok ())
    (hmem : net ∈ nets) (hid : net.ID = res.ID)
    (huniq : ∀ m ∈ nets, m.ID = res.ID → m = net) :
    (resourceNetworkCreate d client createNetwork newFirewall (.ok nets)).err = none ∧
    (resourceNetworkCreate d client createNetwork newFirewall (.ok nets)).state.id = res.ID ∧
    (resourceNetworkCreate d client createNetwork newFirewall (.ok nets)).state.name
      = net.Name ∧
    (resourceNetworkCreate d client createNetwork newFirewall (.ok nets)).state.label
      = net.Label ∧
    (resourceNetworkCreate d client createNetwork newFirewall (.ok nets)).state.default
      = net.Default ∧
    (resourceNetworkCreate d client createNetwork newFirewall (.ok nets)).state.cidr_v4
      = net.CIDR ∧
    (resourceNetworkCreate d client createNetwork newFirewall (.ok nets)).state.nameservers_v4
      = net.NameserversV4 ∧
    (resourceNetworkCreate d client createNetwork newFirewall (.ok nets)).state.region
      = (effClient d client).Region := by
  have hscan : scanNetworks nets res.ID = net := by
    rw [← hid]
    exact scanNetworks_eq nets net hmem fun m hm hmid => huniq m hm (hid ▸ hmid)
  have heff : effClient { d with id := res.ID } (effClient d client) = effClient d client :=
    effClient_idem d { d with id := res.ID } client rfl
  simp only [resourceNetworkCreate, hcreate, createDefaultFirewall, hfw,
    resourceNetworkRead, heff]
  simp [hscan]

/-- Witness for C7: a concrete create followed by the read of a one-element
listing reproduces the listed network in state. -/
theorem create_then_read_round_trip_witness :
    (resourceNetworkCreate newState sampleClient (fun _ => Except.ok sampleResult)
        (fun _ => Except.ok ()) (.ok [sampleNetwork])).state.name = sampleNetwork.Name :=
  (create_then_read_round_trip newState sampleClient (fun _ => Except.ok sampleResult)
    (fun _ => Except.ok ()) [sampleNetwork] sampleResult sampleNetwork rfl rfl
    (List.mem_singleton.mpr rfl) rfl (by decide)).2.2.1

/-- C8: after a successful CreateNetwork call the handler issues exactly
one NewFirewall request, named from the returned network label with the
"-default" suffix and attached to the returned network id; when that
firewall creation fails the handler returns an error, but the created
identifier is already stored in the resulting state. -/
theorem create_default_firewall_spec (d : ResourceData) (client : Client)
    (createNetwork : NetworkConfig → Except String NetworkResult)
    (newFirewall : FirewallConfig → Except String Unit)
    (listResult : ListNetworksResult) (res : NetworkResult)
    (hcreate : createNetwork (buildNetworkConfig d (effClient d client).Region) = .ok res) :
    (resourceNetworkCreate d client createNetwork newFirewall listResult).firewallReq =
      some { Name := res.Label ++ "-default", NetworkID := res.ID,
             Region := (effClient d client).Region } ∧
    (∀ e, newFirewall { Name := res.Label ++ "-default", NetworkID := res.ID,
                        Region := (effClient d client).Region } = .error e →
      (resourceNetworkCreate d client createNetwork newFirewall listResult).err =
        some ("[ERR] failed to create a new firewall for the network: " ++ e) ∧
      (resourceNetworkCreate d client createNetwork newFirewall listResult).state.id
        = res.ID) := by
  constructor
  · cases hfw : newFirewall { Name := res.Label ++ "-default", NetworkID := res.ID,
                              Region := (effClient d client).Region } with
    | error e =>
      simp [resourceNetworkCreate, createDefaultFirewall, defaultFirewallConfig, hcreate, hfw]
    | ok u =>
      simp [resourceNetworkCreate, createDefaultFirewall, defaultFirewallConfig, hcreate, hfw]
  · intro e hfw
    constructor <;>
      simp [resourceNetworkCreate, createDefaultFirewall, defaultFirewallConfig, hcreate, hfw]

/-- Witness for C8: a failing firewall creation leaves the created
identifier in state. -/
theorem create_default_firewall_spec_witness :
    (resourceNetworkCreate newState sampleClient (fun _ => Except.ok sampleResult)
        (fun _ => Except.error "quota exceeded") (.ok [sampleNetwork])).state.id
      = sampleResult.ID :=
  ((create_default_firewall_spec newState sampleClient (fun _ => Except.ok sampleResult)
      (fun _ => Except.error "quota exceeded") (.ok [sampleNetwork]) sampleResult rfl).2
    "quota exceeded" rfl).2

end CivoNetwork
